import Mathlib

/-!
Verification development for the Home Assistant MCP gateway
(`mcp_server.py`): a shallow embedding of the tool-dispatch logic
(`call_tool`), the backend client (`HomeAssistantMCP`) and the tool
catalogue (`list_tools`), together with theorems about the dispatch
contract.

Modelling conventions:
* JSON values (Python parsed-JSON objects) are the inductive `Json`;
  Python `None` is `Json.null`.
* The `arguments` dict of a tool call is an association list
  `List (String × Json)`.
* The remote Home Assistant backend together with the HTTP transport is
  an oracle `Backend : Request → BackendResp`: every HTTP request either
  yields a parsed JSON body, or raises an `aiohttp.ClientError`, or
  raises some other exception.  `call_ha_api` converts the two fault
  cases into `{"error": ...}` objects exactly as the source does.
* Python exceptions that can escape up to the outer
  `try/except` of `call_tool` (attribute errors on malformed state
  objects) are modelled with `Except String`; the outer handler turns
  an escaped exception message `e` into the text `"Error: " ++ e`.
* Every dispatch function additionally returns the list of HTTP
  requests it issued, so that "no backend request is made" is a
  statement about that log being `[]`.
-/

/-- Parsed JSON values as handled by the Python code; `null` doubles as
Python `None`. Numbers are modelled as integers (the only numbers the
dispatch logic ever constructs or inspects). -/
inductive Json where
  | null : Json
  | bool (b : Bool) : Json
  | num (n : Int) : Json
  | str (s : String) : Json
  | arr (items : List Json) : Json
  | obj (fields : List (String × Json)) : Json
deriving Repr

namespace Json

/-- Python truthiness of a parsed-JSON value (`if not x`). -/
def truthy : Json → Bool
  | .null => false
  | .bool b => b
  | .num n => n != 0
  | .str s => s != ""
  | .arr items => !items.isEmpty
  | .obj fields => !fields.isEmpty

/-- Python `x == "lit"` for a parsed-JSON value `x` and a string
literal: true exactly when `x` is that string. -/
def eqStr : Json → String → Bool
  | .str s, lit => s == lit
  | _, _ => false

/-- Python type name of a parsed-JSON value, as it appears in
`AttributeError` messages. -/
def pyType : Json → String
  | .null => "NoneType"
  | .bool _ => "bool"
  | .num _ => "int"
  | .str _ => "str"
  | .arr _ => "list"
  | .obj _ => "dict"

end Json

mutual

/-- Python `repr` of a parsed-JSON value (used by `str()` on lists and
dicts). Strings are rendered with single quotes; escaping inside the
quotes is not modelled (no claim exercises it). -/
def pyRepr : Json → String
  | .null => "None"
  | .bool true => "True"
  | .bool false => "False"
  | .num n => toString n
  | .str s => "'" ++ s ++ "'"
  | .arr items => "[" ++ String.intercalate ", " (pyReprList items) ++ "]"
  | .obj fields => "\x7b" ++ String.intercalate ", " (pyReprFields fields) ++ "\x7d"

def pyReprList : List Json → List String
  | [] => []
  | x :: xs => pyRepr x :: pyReprList xs

def pyReprFields : List (String × Json) → List String
  | [] => []
  | (k, v) :: rest => ("'" ++ k ++ "': " ++ pyRepr v) :: pyReprFields rest

end

/-- Python `str()` of a parsed-JSON value, as used by f-string
interpolation (`f"... {entity_id} ..."`). -/
def pyStr : Json → String
  | .null => "None"
  | .bool true => "True"
  | .bool false => "False"
  | .num n => toString n
  | .str s => s
  | j => pyRepr j

/-- JSON string escaping as performed by `json.dumps` (the escapes the
dispatch logic can actually produce). -/
def jsonEscape (s : String) : String :=
  s.foldl (fun acc c =>
    acc ++ (if c = '"' then "\\\""
            else if c = '\\' then "\\\\"
            else if c = '\n' then "\\n"
            else if c = '\t' then "\\t"
            else if c = '\r' then "\\r"
            else String.singleton c)) ""

mutual

/-- `json.dumps(v, indent=2)`: pretty printing at indentation depth
`ind` (in units of two spaces). -/
def pyDumpsAux (ind : Nat) : Json → String
  | .null => "null"
  | .bool true => "true"
  | .bool false => "false"
  | .num n => toString n
  | .str s => "\"" ++ jsonEscape s ++ "\""
  | .arr [] => "[]"
  | .arr items =>
      "[\n" ++
      String.intercalate ",\n" (pyDumpsItems (ind + 1) items) ++
      "\n" ++ String.join (List.replicate ind "  ") ++ "]"
  | .obj [] => "\x7b\x7d"
  | .obj fields =>
      "\x7b\n" ++
      String.intercalate ",\n" (pyDumpsFields (ind + 1) fields) ++
      "\n" ++ String.join (List.replicate ind "  ") ++ "\x7d"

def pyDumpsItems (ind : Nat) : List Json → List String
  | [] => []
  | x :: xs =>
      (String.join (List.replicate ind "  ") ++ pyDumpsAux ind x) ::
      pyDumpsItems ind xs

def pyDumpsFields (ind : Nat) : List (String × Json) → List String
  | [] => []
  | (k, v) :: rest =>
      (String.join (List.replicate ind "  ") ++ "\"" ++ jsonEscape k ++ "\": " ++
        pyDumpsAux ind v) ::
      pyDumpsFields ind rest

end

/-- `json.dumps(v, indent=2)` as called by the dispatch code. -/
def pyJsonDumps (v : Json) : String := pyDumpsAux 0 v

/-- One HTTP request issued to the Home Assistant REST API:
`{HOME_ASSISTANT_URL}/api/{endpoint}` with the given method and
optional JSON body. -/
structure Request where
  endpoint : String
  method : String
  data : Option Json
deriving Repr

/-- What the transport + JSON decoding does with one request: a parsed
JSON body, an `aiohttp.ClientError` with message `msg`, or any other
exception with message `msg`. -/
inductive BackendResp where
  | json (v : Json) : BackendResp
  | clientError (msg : String) : BackendResp
  | exn (msg : String) : BackendResp

/-- The backend oracle: the behaviour of the remote API (and transport)
on each request. -/
def Backend : Type := Request → BackendResp

/-- The `arguments` dict of a tool invocation. -/
def Args : Type := List (String × Json)

/-- `arguments.get(k)`: the bound value, or Python `None` when the key
is absent. -/
def argGet (args : Args) (k : String) : Json :=
  (args.lookup k).getD Json.null

/-- `k in arguments`. -/
def argHas (args : Args) (k : String) : Bool :=
  (args.lookup k).isSome

/-- `arguments[k]` (only evaluated by the source under an `in` guard). -/
def argIndex (args : Args) (k : String) : Json :=
  (args.lookup k).getD Json.null

/-- Python `d.get(k)` on a parsed-JSON value: `None` when the key is
absent, `AttributeError` when the value is not a dict. -/
def pyDictGet (j : Json) (k : String) : Except String Json :=
  match j with
  | .obj fields => .ok ((fields.lookup k).getD Json.null)
  | _ => .error ("'" ++ j.pyType ++ "' object has no attribute 'get'")

/-- Python `d.get(k, default)` on a parsed-JSON value. -/
def pyDictGetD (j : Json) (k : String) (d : Json) : Except String Json :=
  match j with
  | .obj fields => .ok ((fields.lookup k).getD d)
  | _ => .error ("'" ++ j.pyType ++ "' object has no attribute 'get'")

/-- Python `s.startswith(pfx)` on a parsed-JSON value: `AttributeError`
when the value is not a string. -/
def pyStartswith (j : Json) (pfx : String) : Except String Bool :=
  match j with
  | .str s => .ok (pfx.data.isPrefixOf s.data)
  | _ => .error ("'" ++ j.pyType ++ "' object has no attribute 'startswith'")

/-- Python `d[k] = v` on a dict literal built by the dispatch code:
update in place when the key exists, else append (insertion order). -/
def pyDictSet (j : Json) (k : String) (v : Json) : Json :=
  match j with
  | .obj fields => .obj (setField fields)
  | other => other
where
  setField : List (String × Json) → List (String × Json)
    | [] => [(k, v)]
    | (k', v') :: rest =>
        if k' = k then (k, v) :: rest else (k', v') :: setField rest

/-- One MCP `TextContent` block (`type="text"`). -/
structure TextContent where
  type : String
  text : String
deriving Repr

namespace HomeAssistantMCP

/-- `HomeAssistantMCP.call_ha_api`: issue one request; convert
`aiohttp.ClientError` and any other exception into an `{"error": ...}`
object. An unsupported method raises `ValueError` inside the `try`, so
it too returns an error object — without issuing a request. -/
def call_ha_api (b : Backend) (endpoint : String) (method : String)
    (data : Option Json) : Json × List Request :=
  if method = "GET" ∨ method = "POST" then
    let req : Request := ⟨endpoint, method, data⟩
    match b req with
    | .json v => (v, [req])
    | .clientError msg => (.obj [("error", .str ("HTTP client error: " ++ msg))], [req])
    | .exn msg => (.obj [("error", .str msg)], [req])
  else
    (.obj [("error", .str ("Unsupported HTTP method: " ++ method))], [])

/-- `HomeAssistantMCP.get_states`: fetch `/api/states`; any non-list
result (including converted error objects) becomes the empty list. -/
def get_states (b : Backend) : List Json × List Request :=
  let (result, log) := call_ha_api b "states" "GET" none
  match result with
  | .arr items => (items, log)
  | _ => ([], log)

/-- `HomeAssistantMCP.get_state`. -/
def get_state (b : Backend) (entity_id : String) : Json × List Request :=
  call_ha_api b ("states/" ++ entity_id) "GET" none

/-- `HomeAssistantMCP.call_service`. -/
def call_service (b : Backend) (domain service : String) (data : Json) :
    Json × List Request :=
  call_ha_api b ("services/" ++ domain ++ "/" ++ service) "POST" (some data)

/-- The list comprehension of `get_devices_by_type`:
`[s for s in states if s.get("entity_id", "").startswith(f"{t}.")]`.
Fails with the Python exception message when an element is malformed. -/
def filterByPrefix (pfx : String) : List Json → Except String (List Json)
  | [] => .ok []
  | s :: rest =>
      match pyDictGetD s "entity_id" (.str "") with
      | .error e => .error e
      | .ok v =>
          match pyStartswith v pfx with
          | .error e => .error e
          | .ok keep =>
              match filterByPrefix pfx rest with
              | .error e => .error e
              | .ok tail => .ok (if keep then s :: tail else tail)

/-- `HomeAssistantMCP.get_devices_by_type`. -/
def get_devices_by_type (b : Backend) (device_type : String) :
    Except String (List Json) × List Request :=
  let (states, log) := get_states b
  (filterByPrefix (device_type ++ ".") states, log)

end HomeAssistantMCP

/-- The projection loop shared by the two list-returning tool branches:
each raw state is reduced to
`{"entity_id": s.get("entity_id"), "state": s.get("state"),
  "attributes": s.get("attributes", {})}`. -/
def projectDevices : List Json → Except String (List Json)
  | [] => .ok []
  | state :: rest =>
      match pyDictGet state "entity_id" with
      | .error e => .error e
      | .ok eid =>
          match pyDictGet state "state" with
          | .error e => .error e
          | .ok st =>
              match pyDictGetD state "attributes" (.obj []) with
              | .error e => .error e
              | .ok attrs =>
                  match projectDevices rest with
                  | .error e => .error e
                  | .ok tail =>
                      .ok (Json.obj [("entity_id", eid), ("state", st),
                        ("attributes", attrs)] :: tail)

/-- The `get_all_devices` branch of `call_tool`. -/
def toolGetAllDevices (b : Backend) : Except String String × List Request :=
  let (states, log) := HomeAssistantMCP.get_states b
  match projectDevices states with
  | .error e => (.error e, log)
  | .ok devices =>
      (.ok ("Found " ++ toString devices.length ++ " devices:\n" ++
        pyJsonDumps (.arr devices)), log)

/-- The `get_devices_by_type` branch of `call_tool`. -/
def toolGetDevicesByType (b : Backend) (args : Args) :
    Except String String × List Request :=
  let device_type := argGet args "device_type"
  if !device_type.truthy then
    (.ok "Error: device_type is required", [])
  else
    let (devs, log) := HomeAssistantMCP.get_devices_by_type b (pyStr device_type)
    match devs with
    | .error e => (.error e, log)
    | .ok devices =>
        match projectDevices devices with
        | .error e => (.error e, log)
        | .ok device_list =>
            (.ok ("Found " ++ toString device_list.length ++ " " ++
              pyStr device_type ++ " devices:\n" ++
              pyJsonDumps (.arr device_list)), log)

/-- The `get_device_state` branch of `call_tool`. -/
def toolGetDeviceState (b : Backend) (args : Args) :
    Except String String × List Request :=
  let entity_id := argGet args "entity_id"
  if !entity_id.truthy then
    (.ok "Error: entity_id is required", [])
  else
    let (state, log) := HomeAssistantMCP.get_state b (pyStr entity_id)
    (.ok ("Device " ++ pyStr entity_id ++ " state:\n" ++ pyJsonDumps state), log)

/-- The `control_light` branch of `call_tool`.  Note that `brightness`
and `color_temp` are copied into the payload only on the `turn_on`
path. -/
def toolControlLight (b : Backend) (args : Args) :
    Except String String × List Request :=
  let entity_id := argGet args "entity_id"
  let action := argGet args "action"
  if !entity_id.truthy || !action.truthy then
    (.ok "Error: entity_id and action are required", [])
  else
    let data := Json.obj [("entity_id", entity_id)]
    if action.eqStr "turn_on" then
      let data :=
        if argHas args "brightness" then
          pyDictSet data "brightness" (argIndex args "brightness")
        else data
      let data :=
        if argHas args "color_temp" then
          pyDictSet data "color_temp" (argIndex args "color_temp")
        else data
      let (result, log) := HomeAssistantMCP.call_service b "light" "turn_on" data
      (.ok ("Light " ++ pyStr entity_id ++ " " ++ pyStr action ++ " result:\n" ++
        pyJsonDumps result), log)
    else if action.eqStr "turn_off" then
      let (result, log) := HomeAssistantMCP.call_service b "light" "turn_off" data
      (.ok ("Light " ++ pyStr entity_id ++ " " ++ pyStr action ++ " result:\n" ++
        pyJsonDumps result), log)
    else if action.eqStr "toggle" then
      let (result, log) := HomeAssistantMCP.call_service b "light" "toggle" data
      (.ok ("Light " ++ pyStr entity_id ++ " " ++ pyStr action ++ " result:\n" ++
        pyJsonDumps result), log)
    else
      (.ok ("Error: Invalid action '" ++ pyStr action ++ "'"), [])

/-- The `control_switch` branch of `call_tool`. -/
def toolControlSwitch (b : Backend) (args : Args) :
    Except String String × List Request :=
  let entity_id := argGet args "entity_id"
  let action := argGet args "action"
  if !entity_id.truthy || !action.truthy then
    (.ok "Error: entity_id and action are required", [])
  else
    let data := Json.obj [("entity_id", entity_id)]
    if action.eqStr "turn_on" then
      let (result, log) := HomeAssistantMCP.call_service b "switch" "turn_on" data
      (.ok ("Switch " ++ pyStr entity_id ++ " " ++ pyStr action ++ " result:\n" ++
        pyJsonDumps result), log)
    else if action.eqStr "turn_off" then
      let (result, log) := HomeAssistantMCP.call_service b "switch" "turn_off" data
      (.ok ("Switch " ++ pyStr entity_id ++ " " ++ pyStr action ++ " result:\n" ++
        pyJsonDumps result), log)
    else if action.eqStr "toggle" then
      let (result, log) := HomeAssistantMCP.call_service b "switch" "toggle" data
      (.ok ("Switch " ++ pyStr entity_id ++ " " ++ pyStr action ++ " result:\n" ++
        pyJsonDumps result), log)
    else
      (.ok ("Error: Invalid action '" ++ pyStr action ++ "'"), [])

/-- The `control_climate` branch of `call_tool`.  `action=set_mode`
stores the `mode` argument under the key `hvac_mode`. -/
def toolControlClimate (b : Backend) (args : Args) :
    Except String String × List Request :=
  let entity_id := argGet args "entity_id"
  let action := argGet args "action"
  if !entity_id.truthy || !action.truthy then
    (.ok "Error: entity_id and action are required", [])
  else
    let data := Json.obj [("entity_id", entity_id)]
    if action.eqStr "set_temperature" then
      if !argHas args "temperature" then
        (.ok "Error: temperature is required for set_temperature", [])
      else
        let data := pyDictSet data "temperature" (argIndex args "temperature")
        let (result, log) :=
          HomeAssistantMCP.call_service b "climate" "set_temperature" data
        (.ok ("Climate " ++ pyStr entity_id ++ " " ++ pyStr action ++
          " result:\n" ++ pyJsonDumps result), log)
    else if action.eqStr "set_mode" then
      if !argHas args "mode" then
        (.ok "Error: mode is required for set_mode", [])
      else
        let data := pyDictSet data "hvac_mode" (argIndex args "mode")
        let (result, log) :=
          HomeAssistantMCP.call_service b "climate" "set_hvac_mode" data
        (.ok ("Climate " ++ pyStr entity_id ++ " " ++ pyStr action ++
          " result:\n" ++ pyJsonDumps result), log)
    else
      (.ok ("Error: Invalid action '" ++ pyStr action ++ "'"), [])

/-- The `if/elif` chain of `call_tool`, inside the outer `try`. -/
def callToolBody (b : Backend) (name : String) (args : Args) :
    Except String String × List Request :=
  if name = "get_all_devices" then toolGetAllDevices b
  else if name = "get_devices_by_type" then toolGetDevicesByType b args
  else if name = "get_device_state" then toolGetDeviceState b args
  else if name = "control_light" then toolControlLight b args
  else if name = "control_switch" then toolControlSwitch b args
  else if name = "control_climate" then toolControlClimate b args
  else (.ok ("Error: Unknown tool '" ++ name ++ "'"), [])

/-- `call_tool`: run the dispatch chain; the outer `except Exception`
turns any escaped exception `e` into the text `f"Error: {str(e)}"`.
The second component is the list of HTTP requests issued. -/
def call_tool (b : Backend) (name : String) (args : Args) :
    List TextContent × List Request :=
  match callToolBody b name args with
  | (.ok text, log) => ([⟨"text", text⟩], log)
  | (.error e, log) => ([⟨"text", "Error: " ++ e⟩], log)

/-- One catalogue entry as built by `list_tools`. -/
structure Tool where
  name : String
  description : String
  inputSchema : Json
deriving Repr

/-- The fixed tool catalogue returned by `list_tools`, transcribed
schema for schema from the source. -/
def list_tools : List Tool :=
  [ { name := "get_all_devices"
      description := "Get a list of all devices and their current states"
      inputSchema := .obj
        [ ("type", .str "object")
        , ("properties", .obj [])
        , ("required", .arr []) ] }
  , { name := "get_devices_by_type"
      description := "Get devices of a specific type (light, switch, climate, etc.)"
      inputSchema := .obj
        [ ("type", .str "object")
        , ("properties", .obj
            [ ("device_type", .obj
                [ ("type", .str "string")
                , ("description", .str "Type of device (e.g., 'light', 'switch', 'climate')") ]) ])
        , ("required", .arr [.str "device_type"]) ] }
  , { name := "get_device_state"
      description := "Get the current state of a specific device"
      inputSchema := .obj
        [ ("type", .str "object")
        , ("properties", .obj
            [ ("entity_id", .obj
                [ ("type", .str "string")
                , ("description", .str "Entity ID of the device (e.g., 'light.living_room')") ]) ])
        , ("required", .arr [.str "entity_id"]) ] }
  , { name := "control_light"
      description := "Control a light device (turn on/off, adjust brightness, color)"
      inputSchema := .obj
        [ ("type", .str "object")
        , ("properties", .obj
            [ ("entity_id", .obj
                [ ("type", .str "string")
                , ("description", .str "Entity ID of the light") ])
            , ("action", .obj
                [ ("type", .str "string")
                , ("enum", .arr [.str "turn_on", .str "turn_off", .str "toggle"])
                , ("description", .str "Action to perform") ])
            , ("brightness", .obj
                [ ("type", .str "number")
                , ("description", .str "Brightness level (0-255), optional")
                , ("minimum", .num 0)
                , ("maximum", .num 255) ])
            , ("color_temp", .obj
                [ ("type", .str "number")
                , ("description", .str "Color temperature in Kelvin, optional")
                , ("minimum", .num 150)
                , ("maximum", .num 500) ]) ])
        , ("required", .arr [.str "entity_id", .str "action"]) ] }
  , { name := "control_switch"
      description := "Control a switch device (turn on/off/toggle)"
      inputSchema := .obj
        [ ("type", .str "object")
        , ("properties", .obj
            [ ("entity_id", .obj
                [ ("type", .str "string")
                , ("description", .str "Entity ID of the switch") ])
            , ("action", .obj
                [ ("type", .str "string")
                , ("enum", .arr [.str "turn_on", .str "turn_off", .str "toggle"])
                , ("description", .str "Action to perform") ]) ])
        , ("required", .arr [.str "entity_id", .str "action"]) ] }
  , { name := "control_climate"
      description := "Control climate devices (temperature, mode)"
      inputSchema := .obj
        [ ("type", .str "object")
        , ("properties", .obj
            [ ("entity_id", .obj
                [ ("type", .str "string")
                , ("description", .str "Entity ID of the climate device") ])
            , ("action", .obj
                [ ("type", .str "string")
                , ("enum", .arr [.str "set_temperature", .str "set_mode"])
                , ("description", .str "Action to perform") ])
            , ("temperature", .obj
                [ ("type", .str "number")
                , ("description", .str "Target temperature (required for set_temperature)") ])
            , ("mode", .obj
                [ ("type", .str "string")
                , ("enum", .arr [.str "heat", .str "cool", .str "auto", .str "off"])
                , ("description", .str "Climate mode (required for set_mode)") ]) ])
        , ("required", .arr [.str "entity_id", .str "action"]) ] }
  ]

/-- The parsed state list a given backend yields through `get_states`
(empty when the `/api/states` response is not a list). -/
def statesList (b : Backend) : List Json :=
  (HomeAssistantMCP.get_states b).1

/-- A backend state object is well formed when it is a JSON object
whose `entity_id` field, if present, is a string — the shape the spec's
`DeviceState` data model prescribes. -/
def stateWF (s : Json) : Bool :=
  match s with
  | .obj fields =>
      match fields.lookup "entity_id" with
      | some (.str _) => true
      | some _ => false
      | none => true
  | _ => false

/-- The projected device list computed by the `get_all_devices`
branch. -/
def allDeviceList (b : Backend) : Except String (List Json) :=
  projectDevices (statesList b)

/-- The projected device list computed by the `get_devices_by_type`
branch for filter string `t`. -/
def byTypeDeviceList (b : Backend) (t : String) : Except String (List Json) :=
  match (HomeAssistantMCP.get_devices_by_type b t).1 with
  | .error e => .error e
  | .ok devices => projectDevices devices

/-- Restatement of the spec for the prefix law: the sublist of
projected devices whose `entity_id` starts with `"<t>."`. -/
def specPrefixFilter (t : String) (devices : List Json) : List Json :=
  devices.filter fun d =>
    match d with
    | .obj fields =>
        match fields.lookup "entity_id" with
        | some (.str s) => (t ++ ".").data.isPrefixOf s.data
        | _ => false
    | _ => false

/-- Whether `pat` occurs as a contiguous substring of `s` (used to show
a response text contains no error indicator). -/
def containsSubstr (s pat : String) : Bool :=
  go s.toList
where
  go : List Char → Bool
    | [] => pat.toList.isPrefixOf []
    | c :: rest => pat.toList.isPrefixOf (c :: rest) || go rest

/-- A backend whose every response is the empty JSON object (a service
call that succeeds with no content). -/
def sinkBackend : Backend := fun _ => .json (.obj [])

/-- A backend whose every request raises `aiohttp.ClientError` — the
connection-refused scenario. -/
def downBackend : Backend := fun _ => .clientError "Cannot connect to host"

/-- The schema entry a catalogue tool advertises for one of its input
parameters (`inputSchema.properties.<key>`). -/
def schemaProp (toolName key : String) : Option Json :=
  match list_tools.find? (fun t => t.name == toolName) with
  | some t =>
      match t.inputSchema with
      | .obj fields =>
          match fields.lookup "properties" with
          | some (.obj props) => props.lookup key
          | _ => none
      | _ => none
  | none => none

/-- A backend holding two devices, used to instantiate theorems at a
concrete state list. -/
def demoBackend : Backend := fun _ =>
  .json (.arr
    [ .obj [("entity_id", .str "light.a"), ("state", .str "on")]
    , .obj [("entity_id", .str "switch.b"), ("state", .str "off")] ])

/-- The JSON value `call_ha_api` hands back for a request: the parsed
body on success, the converted `{"error": ...}` object on a fault. -/
def apiValue (b : Backend) (endpoint method : String) (data : Option Json) : Json :=
  match b ⟨endpoint, method, data⟩ with
  | .json v => v
  | .clientError msg => .obj [("error", .str ("HTTP client error: " ++ msg))]
  | .exn msg => .obj [("error", .str msg)]

section DispatchReduction

lemma callToolBody_get_all_devices (b : Backend) (args : Args) :
    callToolBody b "get_all_devices" args = toolGetAllDevices b := rfl

lemma callToolBody_get_devices_by_type (b : Backend) (args : Args) :
    callToolBody b "get_devices_by_type" args = toolGetDevicesByType b args := rfl

lemma callToolBody_get_device_state (b : Backend) (args : Args) :
    callToolBody b "get_device_state" args = toolGetDeviceState b args := rfl

lemma callToolBody_control_light (b : Backend) (args : Args) :
    callToolBody b "control_light" args = toolControlLight b args := rfl

lemma callToolBody_control_switch (b : Backend) (args : Args) :
    callToolBody b "control_switch" args = toolControlSwitch b args := rfl

lemma callToolBody_control_climate (b : Backend) (args : Args) :
    callToolBody b "control_climate" args = toolControlClimate b args := rfl

end DispatchReduction

/-- C6: a tool name outside the catalogue always yields the error text
`Error: Unknown tool '<name>'` and issues no backend request. -/
theorem callTool_unknown_tool (b : Backend) (name : String) (args : Args)
    (h : name ∉ list_tools.map Tool.name) :
    call_tool b name args =
      ([⟨"text", "Error: Unknown tool '" ++ name ++ "'"⟩], []) := by
  simp only [list_tools, List.map, List.mem_cons, List.not_mem_nil, or_false] at h
  push_neg at h
  obtain ⟨h1, h2, h3, h4, h5, h6⟩ := h
  simp only [call_tool, callToolBody, if_neg h1, if_neg h2, if_neg h3, if_neg h4,
    if_neg h5, if_neg h6]

/-- Witness for C6 at the spec's own example input. -/
theorem callTool_unknown_tool_witness :
    call_tool sinkBackend "delete_device" [] =
      ([⟨"text", "Error: Unknown tool 'delete_device'"⟩], []) :=
  callTool_unknown_tool sinkBackend "delete_device" [] (by decide)

lemma truthy_str (s : String) : Json.truthy (.str s) = (s != "") := rfl

lemma truthy_null : Json.truthy .null = false := rfl

lemma call_ha_api_eq (b : Backend) (endpoint method : String) (data : Option Json)
    (hm : method = "GET" ∨ method = "POST") :
    HomeAssistantMCP.call_ha_api b endpoint method data =
      (apiValue b endpoint method data, [⟨endpoint, method, data⟩]) := by
  unfold HomeAssistantMCP.call_ha_api apiValue
  rw [if_pos hm]
  cases hb : b ⟨endpoint, method, data⟩ <;> simp [hb]

lemma call_service_eq (b : Backend) (domain service : String) (data : Json) :
    HomeAssistantMCP.call_service b domain service data =
      (apiValue b ("services/" ++ domain ++ "/" ++ service) "POST" (some data),
       [⟨"services/" ++ domain ++ "/" ++ service, "POST", some data⟩]) :=
  call_ha_api_eq b _ "POST" (some data) (Or.inr rfl)

lemma get_state_eq (b : Backend) (entity_id : String) :
    HomeAssistantMCP.get_state b entity_id =
      (apiValue b ("states/" ++ entity_id) "GET" none,
       [⟨"states/" ++ entity_id, "GET", none⟩]) :=
  call_ha_api_eq b _ "GET" none (Or.inl rfl)

lemma get_states_eq (b : Backend) :
    HomeAssistantMCP.get_states b =
      (match apiValue b "states" "GET" none with
       | .arr items => items
       | _ => [],
       [⟨"states", "GET", none⟩]) := by
  unfold HomeAssistantMCP.get_states
  rw [call_ha_api_eq b "states" "GET" none (Or.inl rfl)]
  cases apiValue b "states" "GET" none <;> rfl

/-- C5: a call missing a required parameter for the selected action
yields the validation error text naming that parameter and issues no
backend request: `get_devices_by_type` without `device_type`,
`get_device_state` without `entity_id`, each control tool without
`entity_id` or without `action`, and `control_climate` without
`temperature` when `action=set_temperature` or without `mode` when
`action=set_mode`. -/
theorem callTool_missing_required_param (b : Backend) (args : Args) :
    (args.lookup "device_type" = none →
      call_tool b "get_devices_by_type" args =
        ([⟨"text", "Error: device_type is required"⟩], [])) ∧
    (args.lookup "entity_id" = none →
      call_tool b "get_device_state" args =
        ([⟨"text", "Error: entity_id is required"⟩], [])) ∧
    (∀ name ∈ ["control_light", "control_switch", "control_climate"],
      args.lookup "entity_id" = none ∨ args.lookup "action" = none →
      call_tool b name args =
        ([⟨"text", "Error: entity_id and action are required"⟩], [])) ∧
    ((argGet args "entity_id").truthy = true →
      argGet args "action" = .str "set_temperature" →
      args.lookup "temperature" = none →
      call_tool b "control_climate" args =
        ([⟨"text", "Error: temperature is required for set_temperature"⟩], [])) ∧
    ((argGet args "entity_id").truthy = true →
      argGet args "action" = .str "set_mode" →
      args.lookup "mode" = none →
      call_tool b "control_climate" args =
        ([⟨"text", "Error: mode is required for set_mode"⟩], [])) := by
  refine ⟨fun h => ?_, fun h => ?_, fun name hmem h => ?_, fun he ha h => ?_,
    fun he ha h => ?_⟩
  · simp [call_tool, callToolBody_get_devices_by_type, toolGetDevicesByType,
      argGet, h, Json.truthy]
  · simp [call_tool, callToolBody_get_device_state, toolGetDeviceState,
      argGet, h, Json.truthy]
  · simp only [List.mem_cons, List.not_mem_nil, or_false] at hmem
    rcases hmem with rfl | rfl | rfl
    · rcases h with h | h <;>
        simp [call_tool, callToolBody_control_light, toolControlLight,
          argGet, h, Json.truthy]
    · rcases h with h | h <;>
        simp [call_tool, callToolBody_control_switch, toolControlSwitch,
          argGet, h, Json.truthy]
    · rcases h with h | h <;>
        simp [call_tool, callToolBody_control_climate, toolControlClimate,
          argGet, h, Json.truthy]
  · simp [call_tool, callToolBody_control_climate, toolControlClimate,
      he, ha, argHas, h, truthy_str, Json.eqStr]
  · simp [call_tool, callToolBody_control_climate, toolControlClimate,
      he, ha, argHas, h, truthy_str, Json.eqStr]

/-- Witness for C5: a `get_device_state` call without `entity_id` and a
`control_climate` `set_temperature` call without `temperature`. -/
theorem callTool_missing_required_param_witness :
    call_tool sinkBackend "get_device_state" [] =
      ([⟨"text", "Error: entity_id is required"⟩], []) ∧
    call_tool sinkBackend "control_climate"
        [("entity_id", .str "climate.hall"), ("action", .str "set_temperature")] =
      ([⟨"text", "Error: temperature is required for set_temperature"⟩], []) :=
  ⟨(callTool_missing_required_param sinkBackend []).2.1 rfl,
   (callTool_missing_required_param sinkBackend
      [("entity_id", .str "climate.hall"), ("action", .str "set_temperature")]).2.2.2.1
     rfl rfl rfl⟩

/-- C10: required string parameters are checked by Python falsiness, so
an `entity_id` (or `action`) bound to the empty string is rejected with
the same "required" error text as an absent parameter, and no backend
request is issued. -/
theorem callTool_empty_string_required (b : Backend) (args : Args) :
    (args.lookup "entity_id" = some (.str "") →
      call_tool b "get_device_state" args =
        ([⟨"text", "Error: entity_id is required"⟩], [])) ∧
    (∀ name ∈ ["control_light", "control_switch", "control_climate"],
      args.lookup "entity_id" = some (.str "") ∨
        args.lookup "action" = some (.str "") →
      call_tool b name args =
        ([⟨"text", "Error: entity_id and action are required"⟩], [])) := by
  refine ⟨fun h => ?_, fun name hmem h => ?_⟩
  · simp [call_tool, callToolBody_get_device_state, toolGetDeviceState,
      argGet, h, Json.truthy]
  · simp only [List.mem_cons, List.not_mem_nil, or_false] at hmem
    rcases hmem with rfl | rfl | rfl
    · rcases h with h | h <;>
        simp [call_tool, callToolBody_control_light, toolControlLight,
          argGet, h, Json.truthy]
    · rcases h with h | h <;>
        simp [call_tool, callToolBody_control_switch, toolControlSwitch,
          argGet, h, Json.truthy]
    · rcases h with h | h <;>
        simp [call_tool, callToolBody_control_climate, toolControlClimate,
          argGet, h, Json.truthy]

/-- Witness for C10: `get_device_state` with an empty `entity_id`, and
`control_light` with an empty `action`. -/
theorem callTool_empty_string_required_witness :
    call_tool sinkBackend "get_device_state" [("entity_id", .str "")] =
      ([⟨"text", "Error: entity_id is required"⟩], []) ∧
    call_tool sinkBackend "control_light"
        [("entity_id", .str "light.x"), ("action", .str "")] =
      ([⟨"text", "Error: entity_id and action are required"⟩], []) :=
  ⟨(callTool_empty_string_required sinkBackend [("entity_id", .str "")]).1 rfl,
   (callTool_empty_string_required sinkBackend
       [("entity_id", .str "light.x"), ("action", .str "")]).2
     "control_light" (by decide) (Or.inr rfl)⟩

/-- C3: a `control_climate` call with a non-empty `entity_id`,
`action=set_mode` and a present `mode` issues exactly one service
invocation, `POST services/climate/set_hvac_mode`, with payload exactly
`{entity_id, hvac_mode: mode}` — the `mode` value renamed to
`hvac_mode` and forwarded unchanged. -/
theorem controlClimate_set_mode_payload (b : Backend) (args : Args)
    (eid : String) (mv : Json)
    (he : argGet args "entity_id" = .str eid) (hne : eid ≠ "")
    (ha : argGet args "action" = .str "set_mode")
    (hm : args.lookup "mode" = some mv) :
    (call_tool b "control_climate" args).2 =
      [⟨"services/climate/set_hvac_mode", "POST",
        some (.obj [("entity_id", .str eid), ("hvac_mode", mv)])⟩] := by
  simp [call_tool, callToolBody_control_climate, toolControlClimate, he, ha,
    truthy_str, hne, Json.eqStr, argHas, hm, argIndex, pyDictSet,
    pyDictSet.setField, call_service_eq, pyStr]

/-- Witness for C3 at the spec's own example input. -/
theorem controlClimate_set_mode_payload_witness :
    (call_tool sinkBackend "control_climate"
        [("entity_id", .str "climate.hall"), ("action", .str "set_mode"),
         ("mode", .str "heat")]).2 =
      [⟨"services/climate/set_hvac_mode", "POST",
        some (.obj [("entity_id", .str "climate.hall"),
          ("hvac_mode", .str "heat")])⟩] :=
  controlClimate_set_mode_payload sinkBackend _ "climate.hall" (.str "heat")
    rfl (by decide) rfl rfl

/-- Counterexample to C4: a `control_light` call with `action=toggle`
and `brightness=120` issues a service call whose payload is
`{entity_id}` only — the provided optional field is dropped, not passed
through. -/
theorem controlLight_toggle_drops_brightness_cex :
    (call_tool sinkBackend "control_light"
        [("entity_id", .str "light.living_room"), ("action", .str "toggle"),
         ("brightness", .num 120)]).2 =
      [⟨"services/light/toggle", "POST",
        some (.obj [("entity_id", .str "light.living_room")])⟩] := rfl

/-- C4 (amended): for `control_light`, provided optional fields
(`brightness`, `color_temp`) are copied into the payload only when
`action=turn_on`; for `turn_off` and `toggle` (and for every
`control_switch` action) the payload is `{entity_id}` alone; the
service invoked is named by the action in the matching domain. -/
theorem controlLightSwitch_payload (b : Backend) (args : Args) (eid : String)
    (he : argGet args "entity_id" = .str eid) (hne : eid ≠ "") :
    (argGet args "action" = .str "turn_on" →
      (call_tool b "control_light" args).2 =
        [⟨"services/light/turn_on", "POST",
          some (.obj ([("entity_id", .str eid)] ++
            (if argHas args "brightness" then
              [("brightness", argIndex args "brightness")] else []) ++
            (if argHas args "color_temp" then
              [("color_temp", argIndex args "color_temp")] else [])))⟩]) ∧
    (argGet args "action" = .str "turn_off" →
      (call_tool b "control_light" args).2 =
        [⟨"services/light/turn_off", "POST",
          some (.obj [("entity_id", .str eid)])⟩]) ∧
    (argGet args "action" = .str "toggle" →
      (call_tool b "control_light" args).2 =
        [⟨"services/light/toggle", "POST",
          some (.obj [("entity_id", .str eid)])⟩]) ∧
    (∀ act ∈ ["turn_on", "turn_off", "toggle"],
      argGet args "action" = .str act →
      (call_tool b "control_switch" args).2 =
        [⟨"services/switch/" ++ act, "POST",
          some (.obj [("entity_id", .str eid)])⟩]) := by
  refine ⟨fun ha => ?_, fun ha => ?_, fun ha => ?_, fun act hmem ha => ?_⟩
  · by_cases hb : argHas args "brightness" <;>
      by_cases hc : argHas args "color_temp" <;>
      simp [call_tool, callToolBody_control_light, toolControlLight, he, ha,
        truthy_str, hne, Json.eqStr, hb, hc, pyDictSet, pyDictSet.setField,
        call_service_eq]
  · simp [call_tool, callToolBody_control_light, toolControlLight, he, ha,
      truthy_str, hne, Json.eqStr, call_service_eq]
  · simp [call_tool, callToolBody_control_light, toolControlLight, he, ha,
      truthy_str, hne, Json.eqStr, call_service_eq]
  · simp only [List.mem_cons, List.not_mem_nil, or_false] at hmem
    rcases hmem with rfl | rfl | rfl <;>
      simp [call_tool, callToolBody_control_switch, toolControlSwitch, he, ha,
        truthy_str, hne, Json.eqStr, call_service_eq]

/-- Witness for the amended C4: `turn_on` with `brightness=120` does
pass the field through. -/
theorem controlLightSwitch_payload_witness :
    (call_tool sinkBackend "control_light"
        [("entity_id", .str "light.living_room"), ("action", .str "turn_on"),
         ("brightness", .num 120)]).2 =
      [⟨"services/light/turn_on", "POST",
        some (.obj [("entity_id", .str "light.living_room"),
          ("brightness", .num 120)])⟩] := by
  have h := (controlLightSwitch_payload sinkBackend
      [("entity_id", .str "light.living_room"), ("action", .str "turn_on"),
       ("brightness", .num 120)] "light.living_room" rfl (by decide)).1 rfl
  exact h

/-- Counterexample to C7: `control_light` with a non-empty `entity_id`
and the action value `""` — a value outside the enumerated set — is
answered with the "required" validation text, not with
`Error: Invalid action ''`. -/
theorem controlLight_empty_action_cex :
    call_tool sinkBackend "control_light"
        [("entity_id", .str "light.x"), ("action", .str "")] =
      ([⟨"text", "Error: entity_id and action are required"⟩], []) ∧
    "Error: entity_id and action are required" ≠
      "Error: Invalid action ''" :=
  ⟨rfl, by decide⟩

/-- C7 (amended): for a truthy action value outside the tool's
enumerated set, each control tool answers
`Error: Invalid action '<action>'` and issues no backend request (an
empty-string action instead hits the "required" check first). -/
theorem callTool_invalid_action (b : Backend) (args : Args) (v a : Json)
    (he : argGet args "entity_id" = v) (hv : v.truthy = true)
    (ha : argGet args "action" = a) (hat : a.truthy = true) :
    (a.eqStr "turn_on" = false → a.eqStr "turn_off" = false →
      a.eqStr "toggle" = false →
      call_tool b "control_light" args =
        ([⟨"text", "Error: Invalid action '" ++ pyStr a ++ "'"⟩], []) ∧
      call_tool b "control_switch" args =
        ([⟨"text", "Error: Invalid action '" ++ pyStr a ++ "'"⟩], [])) ∧
    (a.eqStr "set_temperature" = false → a.eqStr "set_mode" = false →
      call_tool b "control_climate" args =
        ([⟨"text", "Error: Invalid action '" ++ pyStr a ++ "'"⟩], [])) := by
  subst he ha
  refine ⟨fun h1 h2 h3 => ⟨?_, ?_⟩, fun h1 h2 => ?_⟩
  · simp [call_tool, callToolBody_control_light, toolControlLight, hv, hat,
      h1, h2, h3]
  · simp [call_tool, callToolBody_control_switch, toolControlSwitch, hv, hat,
      h1, h2, h3]
  · simp [call_tool, callToolBody_control_climate, toolControlClimate, hv, hat,
      h1, h2]

/-- Witness for the amended C7. -/
theorem callTool_invalid_action_witness :
    call_tool sinkBackend "control_light"
        [("entity_id", .str "light.x"), ("action", .str "fly")] =
      ([⟨"text", "Error: Invalid action 'fly'"⟩], []) := by
  have h := ((callTool_invalid_action sinkBackend
      [("entity_id", .str "light.x"), ("action", .str "fly")]
      (.str "light.x") (.str "fly") rfl rfl rfl rfl).1 rfl rfl rfl).1
  exact h

/-- Counterexample to C9: `control_light` with `brightness=999`
(outside the advertised `[0,255]`) is not rejected — the service call
is issued with the out-of-range value in its payload. -/
theorem controlLight_out_of_range_forwarded_cex :
    call_tool sinkBackend "control_light"
        [("entity_id", .str "light.x"), ("action", .str "turn_on"),
         ("brightness", .num 999)] =
      ([⟨"text", "Light light.x turn_on result:\n\x7b\x7d"⟩],
       [⟨"services/light/turn_on", "POST",
         some (.obj [("entity_id", .str "light.x"),
           ("brightness", .num 999)])⟩]) := rfl

/-- C9 (amended): the catalogue schema advertises
`brightness ∈ [0,255]` and `color_temp ∈ [150,500]`, but dispatch
performs no range validation: any provided `brightness` value, in range
or not, is forwarded to the backend unchanged. -/
theorem controlLight_range_not_enforced (b : Backend) (args : Args)
    (eid : String) (bv : Json)
    (he : argGet args "entity_id" = .str eid) (hne : eid ≠ "")
    (ha : argGet args "action" = .str "turn_on")
    (hb : args.lookup "brightness" = some bv)
    (hc : args.lookup "color_temp" = none) :
    schemaProp "control_light" "brightness" =
      some (.obj [("type", .str "number"),
        ("description", .str "Brightness level (0-255), optional"),
        ("minimum", .num 0), ("maximum", .num 255)]) ∧
    schemaProp "control_light" "color_temp" =
      some (.obj [("type", .str "number"),
        ("description", .str "Color temperature in Kelvin, optional"),
        ("minimum", .num 150), ("maximum", .num 500)]) ∧
    (call_tool b "control_light" args).2 =
      [⟨"services/light/turn_on", "POST",
        some (.obj [("entity_id", .str eid), ("brightness", bv)])⟩] := by
  refine ⟨rfl, rfl, ?_⟩
  simp [call_tool, callToolBody_control_light, toolControlLight, he, ha,
    truthy_str, hne, Json.eqStr, argHas, hb, hc, argIndex, pyDictSet,
    pyDictSet.setField, call_service_eq]

/-- Witness for the amended C9 at `brightness=999`. -/
theorem controlLight_range_not_enforced_witness :
    (call_tool sinkBackend "control_light"
        [("entity_id", .str "light.x"), ("action", .str "turn_on"),
         ("brightness", .num 999)]).2 =
      [⟨"services/light/turn_on", "POST",
        some (.obj [("entity_id", .str "light.x"),
          ("brightness", .num 999)])⟩] := by
  have h := (controlLight_range_not_enforced sinkBackend
      [("entity_id", .str "light.x"), ("action", .str "turn_on"),
       ("brightness", .num 999)] "light.x" (.num 999) rfl (by decide) rfl rfl
      rfl).2.2
  exact h

lemma get_states_pair (b : Backend) :
    HomeAssistantMCP.get_states b = (statesList b, [⟨"states", "GET", none⟩]) := by
  rw [get_states_eq b]
  unfold statesList
  rw [get_states_eq b]

lemma callTool_getAll_empty (b : Backend) (args : Args)
    (h : HomeAssistantMCP.get_states b = ([], [⟨"states", "GET", none⟩])) :
    call_tool b "get_all_devices" args =
      ([⟨"text", "Found 0 devices:\n[]"⟩], [⟨"states", "GET", none⟩]) := by
  simp only [call_tool, callToolBody_get_all_devices, toolGetAllDevices, h]
  rfl

/-- C8: when the `/api/states` response is anything but a list — a
fault converted to an `{"error": ...}` object or any non-list JSON
value — `get_states` returns the empty list and `get_all_devices`
renders `Found 0 devices`. -/
theorem getStates_non_list_empty (b : Backend)
    (h : (∃ v, b ⟨"states", "GET", none⟩ = .json v ∧ ∀ items, v ≠ .arr items) ∨
         (∃ msg, b ⟨"states", "GET", none⟩ = .clientError msg) ∨
         (∃ msg, b ⟨"states", "GET", none⟩ = .exn msg)) :
    statesList b = [] ∧
    call_tool b "get_all_devices" [] =
      ([⟨"text", "Found 0 devices:\n[]"⟩], [⟨"states", "GET", none⟩]) := by
  have hav : ∀ items, apiValue b "states" "GET" none ≠ .arr items := by
    rcases h with ⟨v, hb, hv⟩ | ⟨m, hb⟩ | ⟨m, hb⟩ <;> intro items <;>
      simp only [apiValue, hb]
    · exact hv items
    · simp
    · simp
  have hs : statesList b = [] := by
    unfold statesList
    rw [get_states_eq b]
    rcases hv2 : apiValue b "states" "GET" none with _ | _ | _ | _ | items | _ <;>
      first
        | rfl
        | exact absurd hv2 (hav _)
  refine ⟨hs, callTool_getAll_empty b [] ?_⟩
  rw [get_states_pair b, hs]

/-- Witness for C8 at a connection-refused backend (its `/api/states`
answer becomes an error object, which is not a list). -/
theorem getStates_non_list_empty_witness :
    statesList downBackend = [] ∧
    call_tool downBackend "get_all_devices" [] =
      ([⟨"text", "Found 0 devices:\n[]"⟩], [⟨"states", "GET", none⟩]) :=
  getStates_non_list_empty downBackend
    (Or.inr (Or.inl ⟨"Cannot connect to host", rfl⟩))

/-- Counterexample to C1: a transport fault during `get_all_devices` is
not surfaced as error text — the response is `Found 0 devices:\n[]`,
which contains neither an error indicator nor the fault message. -/
theorem dispatch_swallows_transport_fault_cex :
    call_tool downBackend "get_all_devices" [] =
      ([⟨"text", "Found 0 devices:\n[]"⟩], [⟨"states", "GET", none⟩]) ∧
    containsSubstr "Found 0 devices:\n[]" "rror" = false ∧
    containsSubstr "Found 0 devices:\n[]" "Cannot connect" = false :=
  ⟨rfl, rfl, rfl⟩

/-- C1 (amended): every dispatch terminates in exactly one well-formed
text block and no exception escapes — runtime faults become
`Error: ...` text — but a transport fault is surfaced in the response
text only on the `get_device_state`/service paths; on
`get_all_devices` it is coerced to an empty device list and rendered
as `Found 0 devices` with no error indicator. -/
theorem dispatch_total_and_fault_surfacing :
    (∀ (b : Backend) (name : String) (args : Args),
      ∃ t, (call_tool b name args).1 = [⟨"text", t⟩]) ∧
    (∀ (m : String) (args : Args) (eid : String),
      argGet args "entity_id" = .str eid → eid ≠ "" →
      (call_tool (fun _ => .clientError m) "get_device_state" args).1 =
        [⟨"text", "Device " ++ eid ++ " state:\n" ++
          pyJsonDumps (.obj [("error", .str ("HTTP client error: " ++ m))])⟩]) ∧
    (∀ (m : String) (args : Args),
      call_tool (fun _ => .clientError m) "get_all_devices" args =
        ([⟨"text", "Found 0 devices:\n[]"⟩], [⟨"states", "GET", none⟩])) ∧
    (∀ (b : Backend) (args : Args),
      b ⟨"states", "GET", none⟩ = .json (.arr [.str "bad"]) →
      call_tool b "get_all_devices" args =
        ([⟨"text", "Error: 'str' object has no attribute 'get'"⟩],
         [⟨"states", "GET", none⟩])) := by
  refine ⟨fun b name args => ?_, fun m args eid he hne => ?_,
    fun m args => ?_, fun b args hb => ?_⟩
  · rcases h : callToolBody b name args with ⟨r, log⟩
    cases r with
    | ok t => exact ⟨t, by simp [call_tool, h]⟩
    | error e => exact ⟨"Error: " ++ e, by simp [call_tool, h]⟩
  · simp [call_tool, callToolBody_get_device_state, toolGetDeviceState, he,
      truthy_str, hne, get_state_eq, apiValue, pyStr]
  · refine callTool_getAll_empty _ args ?_
    rw [get_states_eq]
    simp [apiValue]
  · have hgs : HomeAssistantMCP.get_states b =
        ([.str "bad"], [⟨"states", "GET", none⟩]) := by
      rw [get_states_eq]
      simp [apiValue, hb]
    simp only [call_tool, callToolBody_get_all_devices, toolGetAllDevices, hgs]
    rfl

/-- Witness for the amended C1: a faulting backend's error object is
surfaced in the `get_device_state` response text. -/
theorem dispatch_total_and_fault_surfacing_witness :
    (call_tool (fun _ => .clientError "boom") "get_device_state"
        [("entity_id", .str "light.x")]).1 =
      [⟨"text", "Device light.x state:\n" ++
        pyJsonDumps (.obj [("error", .str "HTTP client error: boom")])⟩] := by
  have h := dispatch_total_and_fault_surfacing.2.1 "boom"
      [("entity_id", .str "light.x")] "light.x" rfl (by decide)
  exact h

lemma prefixOf_nil_false (t : String) :
    ((t ++ ".").data.isPrefixOf ([] : List Char)) = false := by
  apply List.isPrefixOf_length_pos_nil
  simp

lemma projectDevices_filterByPrefix (t : String) (xs : List Json)
    (h : ∀ s ∈ xs, stateWF s = true) :
    ∃ ds fs, projectDevices xs = .ok ds ∧
      HomeAssistantMCP.filterByPrefix (t ++ ".") xs = .ok fs ∧
      projectDevices fs = .ok (specPrefixFilter t ds) := by
  induction xs with
  | nil => exact ⟨[], [], rfl, rfl, rfl⟩
  | cons s xs ih =>
    have hs : stateWF s = true := h s (List.mem_cons_self s xs)
    obtain ⟨ds, fs, hds, hfs, hpf⟩ :=
      ih (fun x hx => h x (List.mem_cons_of_mem s hx))
    rcases s with _ | bv | nv | sv | items | fields
    · simp [stateWF] at hs
    · simp [stateWF] at hs
    · simp [stateWF] at hs
    · simp [stateWF] at hs
    · simp [stateWF] at hs
    rcases hl : fields.lookup "entity_id" with _ | v
    · refine ⟨Json.obj [("entity_id", Json.null),
          ("state", (fields.lookup "state").getD .null),
          ("attributes", (fields.lookup "attributes").getD (.obj []))] :: ds,
        fs, ?_, ?_, ?_⟩
      · simp [projectDevices, pyDictGet, pyDictGetD, hl, hds]
      · simp [HomeAssistantMCP.filterByPrefix, pyDictGetD, hl, pyStartswith,
          prefixOf_nil_false, hfs]
      · simp [specPrefixFilter, List.filter, List.lookup, hpf]
    · rcases v with _ | bv | nv | e | items | flds
      · simp [stateWF, hl] at hs
      · simp [stateWF, hl] at hs
      · simp [stateWF, hl] at hs
      · cases hkeep : (t.data ++ ['.']).isPrefixOf e.data
        · have hk : ¬ (t.data ++ ['.'] <+: e.data) := by
            rw [← List.isPrefixOf_iff_prefix, hkeep]
            exact Bool.false_ne_true
          refine ⟨Json.obj [("entity_id", Json.str e),
              ("state", (fields.lookup "state").getD .null),
              ("attributes", (fields.lookup "attributes").getD (.obj []))] :: ds,
            fs, ?_, ?_, ?_⟩
          · simp [projectDevices, pyDictGet, pyDictGetD, hl, hds]
          · simp [HomeAssistantMCP.filterByPrefix, pyDictGetD, hl, pyStartswith,
              hkeep, hk, hfs]
          · simp [specPrefixFilter, List.filter, List.lookup, hkeep, hk, hpf]
        · have hk : t.data ++ ['.'] <+: e.data := by
            rw [← List.isPrefixOf_iff_prefix, hkeep]
          refine ⟨Json.obj [("entity_id", Json.str e),
              ("state", (fields.lookup "state").getD .null),
              ("attributes", (fields.lookup "attributes").getD (.obj []))] :: ds,
            Json.obj fields :: fs, ?_, ?_, ?_⟩
          · simp [projectDevices, pyDictGet, pyDictGetD, hl, hds]
          · simp [HomeAssistantMCP.filterByPrefix, pyDictGetD, hl, pyStartswith,
              hkeep, hk, hfs]
          · simp [projectDevices, pyDictGet, pyDictGetD, hl, hpf,
              specPrefixFilter, List.filter, List.lookup, hkeep, hk]
      · simp [stateWF, hl] at hs
      · simp [stateWF, hl] at hs

/-- C2: for a non-empty type filter and a well-formed backend state
list, the `get_devices_by_type` result is exactly the sublist of the
`get_all_devices` result whose `entity_id` starts with `"<t>."` — the
same per-item projection applied to the filtered sublist, in the same
order — and both tools render exactly those lists. -/
theorem getDevicesByType_prefix_law (b : Backend) (t : String) (ht : t ≠ "")
    (hwf : ∀ s ∈ statesList b, stateWF s = true) :
    ∃ ds, allDeviceList b = .ok ds ∧
      byTypeDeviceList b t = .ok (specPrefixFilter t ds) ∧
      (call_tool b "get_devices_by_type" [("device_type", .str t)]).1 =
        [⟨"text", "Found " ++ toString (specPrefixFilter t ds).length ++ " " ++
          t ++ " devices:\n" ++ pyJsonDumps (.arr (specPrefixFilter t ds))⟩] ∧
      (call_tool b "get_all_devices" []).1 =
        [⟨"text", "Found " ++ toString ds.length ++ " devices:\n" ++
          pyJsonDumps (.arr ds)⟩] := by
  obtain ⟨ds, fs, hds, hfs, hpf⟩ :=
    projectDevices_filterByPrefix t (statesList b) hwf
  have hgdbt : HomeAssistantMCP.get_devices_by_type b t =
      (.ok fs, [⟨"states", "GET", none⟩]) := by
    unfold HomeAssistantMCP.get_devices_by_type
    rw [get_states_pair b]
    simp [hfs]
  refine ⟨ds, hds, ?_, ?_, ?_⟩
  · unfold byTypeDeviceList
    rw [hgdbt]
    simp [hpf]
  · simp [call_tool, callToolBody_get_devices_by_type, toolGetDevicesByType,
      argGet, List.lookup, truthy_str, ht, pyStr, hgdbt, hpf]
  · simp [call_tool, callToolBody_get_all_devices, toolGetAllDevices,
      get_states_pair b, hds]

/-- Witness for C2 at a two-device backend and the filter `light`. -/
theorem getDevicesByType_prefix_law_witness :
    ∃ ds, allDeviceList demoBackend = .ok ds ∧
      byTypeDeviceList demoBackend "light" =
        .ok (specPrefixFilter "light" ds) ∧
      (call_tool demoBackend "get_devices_by_type"
          [("device_type", .str "light")]).1 =
        [⟨"text", "Found " ++
          toString (specPrefixFilter "light" ds).length ++ " " ++ "light" ++
          " devices:\n" ++
          pyJsonDumps (.arr (specPrefixFilter "light" ds))⟩] ∧
      (call_tool demoBackend "get_all_devices" []).1 =
        [⟨"text", "Found " ++ toString ds.length ++ " devices:\n" ++
          pyJsonDumps (.arr ds)⟩] :=
  getDevicesByType_prefix_law demoBackend "light" (by decide) (by decide)
